import Mathlib

/-!
# LatticeFrameElastic (src/latticeframeplasticsteel.C)

A shallow embedding of the elastic constitutive model for 3D lattice frame
elements.  A C++ `double` is represented by an exact rational number, so all
statements below are about the arithmetic the code spells out, not about
IEEE rounding.  Objects that the C++ code reaches through pointers
(material statuses) live in an explicit heap, addressed by their index.
-/

namespace oofem

/-- Fixed-size array `FloatArrayF<N>`; entries are rationals standing for doubles. -/
abbrev FloatArrayF (n : Nat) := Fin n → ℚ

/-- Fixed-size matrix `FloatMatrixF<N,M>`, indexed row first. -/
abbrev FloatMatrixF (n m : Nat) := Fin n → Fin m → ℚ

/-- Modelled from the spec: `diag` of floatmatrixf.h is not part of the sources at hand.
The spec describes its result as the diagonal matrix built from the given
values, every off-diagonal term being structurally zero. -/
def diag {n : Nat} (v : FloatArrayF n) : FloatMatrixF n n :=
  fun i j => if i = j then v i else 0

/-- Modelled from the spec: `dot` of floatmatrixf.h is not part of the sources at hand.
The spec describes it as the matrix-vector product. -/
def dot {n m : Nat} (a : FloatMatrixF n m) (x : FloatArrayF m) : FloatArrayF n :=
  fun i => ∑ j : Fin m, a i j * x j

/-- Response modes of the host framework; the routines below never inspect them. -/
inductive MatResponseMode where
  | TangentStiffness
  | SecantStiffness
  | ElasticStiffness
  deriving DecidableEq, Repr

/-- Material property keys used by `Material::give`. -/
inductive MatProperty where
  | tAlpha
  | other (key : Nat)
  deriving DecidableEq, Repr

/-- Time step handle; only passed through. -/
structure TimeStep where
  number : Nat
  deriving DecidableEq, Repr

/-- The geometric queries of `LatticeStructuralElement` that the material uses
(`giveArea`, `giveIz`, `giveIy`, `giveIk`, `giveShearAreaZ`, `giveShearAreaY`). -/
structure LatticeStructuralElement where
  giveArea : ℚ
  giveIz : ℚ
  giveIy : ℚ
  giveIk : ℚ
  giveShearAreaZ : ℚ
  giveShearAreaY : ℚ

/-- Modelled from the spec: `LatticeMaterialStatus` is declared in latticematstatus.h,
which is not part of the sources at hand.  Per the spec it holds the committed
(converged) and the temp (trial) strain and stress vectors of dimension 6. -/
structure LatticeMaterialStatus where
  latticeStrain : FloatArrayF 6
  latticeStress : FloatArrayF 6
  tempLatticeStrain : FloatArrayF 6
  tempLatticeStress : FloatArrayF 6

/-- Modelled from the spec: the constructor of `LatticeMaterialStatus` is not part of
the sources at hand; a newly constructed status starts with zero vectors. -/
def LatticeMaterialStatus.fresh : LatticeMaterialStatus :=
  ⟨fun _ => 0, fun _ => 0, fun _ => 0, fun _ => 0⟩

/-- Modelled from the spec: `letTempLatticeStrainBe` stores into the temp strain slot. -/
def LatticeMaterialStatus.letTempLatticeStrainBe (s : LatticeMaterialStatus)
    (v : FloatArrayF 6) : LatticeMaterialStatus :=
  { s with tempLatticeStrain := v }

/-- Modelled from the spec: `letTempLatticeStressBe` stores into the temp stress slot. -/
def LatticeMaterialStatus.letTempLatticeStressBe (s : LatticeMaterialStatus)
    (v : FloatArrayF 6) : LatticeMaterialStatus :=
  { s with tempLatticeStress := v }

/-- Modelled from the spec: the status-level `initTempStatus` prepares the temp slots
for a new trial iteration by resetting them to the committed values; the
committed values are not touched. -/
def LatticeMaterialStatus.initTempStatus (s : LatticeMaterialStatus) :
    LatticeMaterialStatus :=
  { s with tempLatticeStrain := s.latticeStrain, tempLatticeStress := s.latticeStress }

/-- The heap of status objects; the address of an object is its index. -/
abbrev Heap := List LatticeMaterialStatus

/-- Integration point: its owning element and its status pointer
(`none` is the null pointer). -/
structure GaussPoint where
  giveElement : LatticeStructuralElement
  giveMaterialStatus : Option Nat

/-- The mutator `gp->setMaterialStatus(status)`. -/
def GaussPoint.setMaterialStatus (gp : GaussPoint) (status : Nat) : GaussPoint :=
  { gp with giveMaterialStatus := some status }

/-- The status pointer of the point, if any, refers to an allocated object. -/
def WellFormed (h : Heap) (gp : GaussPoint) : Prop :=
  ∀ a, gp.giveMaterialStatus = some a → a < h.length

/-- Write through a status pointer; `none` when the pointer does not refer to
an allocated object. -/
def Heap.update (h : Heap) (a : Nat) (f : LatticeMaterialStatus → LatticeMaterialStatus) :
    Option Heap :=
  match h[a]? with
  | some s => some (h.set a (f s))
  | none => none

/-- The material: Young modulus `e`, Poisson ratio `nu`, and the inherited
property lookup `Material::give`, whose implementation lives in the base class. -/
structure LatticeFrameElastic where
  e : ℚ
  nu : ℚ
  give : MatProperty → GaussPoint → ℚ

/-- `LatticeFrameElastic::CreateStatus`: `new LatticeMaterialStatus(gp)`.
Returns the address of the new object and the extended heap. -/
def LatticeFrameElastic.CreateStatus (_m : LatticeFrameElastic) (h : Heap)
    (_gp : GaussPoint) : Option Nat × Heap :=
  (some h.length, h ++ [LatticeMaterialStatus.fresh])

/-- `LatticeFrameElastic::giveStatus`: the status pointer, the heap and the point
after the call. -/
def LatticeFrameElastic.giveStatus (m : LatticeFrameElastic) (h : Heap) (gp : GaussPoint) :
    Option Nat × Heap × GaussPoint :=
  match gp.giveMaterialStatus with
  | some a => (some a, h, gp)
  | none =>
    match m.CreateStatus h gp with
    | (some a, h1) => (some a, h1, gp.setMaterialStatus a)
    | (none, h1) => (none, h1, gp)

/-- `LatticeFrameElastic::giveThermalDilatationVector`. -/
def LatticeFrameElastic.giveThermalDilatationVector (m : LatticeFrameElastic)
    (gp : GaussPoint) (_tStep : TimeStep) : FloatArrayF 6 :=
  let alpha := m.give MatProperty.tAlpha gp
  ![alpha, 0, 0, 0, 0, 0]

/-- `LatticeFrameElastic::give3dFrameStiffnessMatrix`: the matrix, the heap and
the point after the call (the call to `giveStatus` may attach a status). -/
def LatticeFrameElastic.give3dFrameStiffnessMatrix (m : LatticeFrameElastic)
    (_rmode : MatResponseMode) (h : Heap) (gp : GaussPoint) (_atTime : TimeStep) :
    FloatMatrixF 6 6 × Heap × GaussPoint :=
  let (_, h1, gp1) := m.giveStatus h gp
  let g := m.e / (2 * (1 + m.nu))
  let area := gp1.giveElement.giveArea
  let iz := gp1.giveElement.giveIz
  let iy := gp1.giveElement.giveIy
  let ik := gp1.giveElement.giveIk
  let shearareaz := gp1.giveElement.giveShearAreaZ
  let shearareay := gp1.giveElement.giveShearAreaY
  let d : FloatArrayF 6 := ![m.e * area, g * shearareaz, g * shearareay, m.e * iz, m.e * iy, g * ik]
  (diag d, h1, gp1)

/-- Modelled from the spec: `Material::initTempStatus(gp)` of the base class is not part
of the sources at hand.  It fetches the status of the point through
`giveStatus` and initialises its temp slots. -/
def LatticeFrameElastic.initTempStatus (m : LatticeFrameElastic) (h : Heap) (gp : GaussPoint) :
    Option (Heap × GaussPoint) :=
  match m.giveStatus h gp with
  | (some a, h1, gp1) =>
    match h1.update a LatticeMaterialStatus.initTempStatus with
    | some h2 => some (h2, gp1)
    | none => none
  | (none, h1, gp1) => some (h1, gp1)

/-- `LatticeFrameElastic::giveFrameForces3d`: the stress, the heap and the point
after the call; `none` when a status pointer that is null or dangling is
dereferenced. -/
def LatticeFrameElastic.giveFrameForces3d (m : LatticeFrameElastic) (strain : FloatArrayF 6)
    (h : Heap) (gp : GaussPoint) (tStep : TimeStep) :
    Option (FloatArrayF 6 × Heap × GaussPoint) :=
  match m.giveStatus h gp with
  | (status, h1, gp1) =>
    match m.initTempStatus h1 gp1 with
    | none => none
    | some (h2, gp2) =>
      match m.give3dFrameStiffnessMatrix MatResponseMode.ElasticStiffness h2 gp2 tStep with
      | (stiffnessMatrix, h3, gp3) =>
        let stress := dot stiffnessMatrix strain
        match status with
        | none => none
        | some a =>
          match h3.update a (fun s => s.letTempLatticeStrainBe strain) with
          | none => none
          | some h4 =>
            match h4.update a (fun s => s.letTempLatticeStressBe stress) with
            | none => none
            | some h5 => some (stress, h5, gp3)

/-- The status object the point refers to, if the pointer is set and valid. -/
def statusOf (h : Heap) (gp : GaussPoint) : Option LatticeMaterialStatus :=
  match gp.giveMaterialStatus with
  | some a => h[a]?
  | none => none

/-- Analysis modes of the host framework (`MaterialMode` of materialmode.h); the
material only compares a mode with `_3dLattice`. -/
inductive MaterialMode where
  | _Unknown
  | _3dMat
  | _PlaneStress
  | _PlaneStrain
  | _2dBeam
  | _3dBeam
  | _1dLattice
  | _2dLattice
  | _3dLattice
  deriving DecidableEq, Repr

/-- `LatticeFrameElastic::hasMaterialModeCapability`. -/
def LatticeFrameElastic.hasMaterialModeCapability (_m : LatticeFrameElastic)
    (mode : MaterialMode) : Bool :=
  decide (mode = MaterialMode._3dLattice)

/-- Keyword of an input field (`InputFieldType`). -/
abbrev InputFieldType := String

/-- Input record: the keyword/value pairs of one configuration line. -/
abbrev InputRecord := List (InputFieldType × ℚ)

/-- The input-error condition raised by the input record. -/
inductive InputError where
  | missingKeyword (key : InputFieldType)
  | other (code : Nat)
  deriving DecidableEq, Repr

/-- Modelled from the spec: the macro `IR_GIVE_FIELD` and the record behind it are not
part of the sources at hand.  Per the spec a required field is read from the
record, and its absence is an input error raised by the record; no default
is supplied. -/
def InputRecord.giveField (ir : InputRecord) (key : InputFieldType) : Except InputError ℚ :=
  match ir.lookup key with
  | some v => Except.ok v
  | none => Except.error (InputError.missingKeyword key)

/-- `LatticeFrameElastic::initializeFrom`.  The base-class initialisation
`LatticeStructuralMaterial::initializeFrom` and the two keywords
`_IFT_LatticeFrameElastic_e`, `_IFT_LatticeFrameElastic_n` are declared
elsewhere and enter as parameters. -/
def LatticeFrameElastic.initializeFrom
    (baseInitializeFrom : InputRecord → LatticeFrameElastic → Except InputError LatticeFrameElastic)
    (ift_e ift_n : InputFieldType) (this : LatticeFrameElastic) (ir : InputRecord) :
    Except InputError LatticeFrameElastic :=
  match baseInitializeFrom ir this with
  | Except.error err => Except.error err
  | Except.ok m0 =>
    match ir.giveField ift_e with
    | Except.error err => Except.error err
    | Except.ok e =>
      let m1 := { m0 with e := e }
      match ir.giveField ift_n with
      | Except.error err => Except.error err
      | Except.ok nu => Except.ok { m1 with nu := nu }

/-! ## Sample data used by instances -/

/-- A material with `e = 2`, `nu = 0` (so `g = 1`) and no thermal expansion. -/
def sampleMaterial : LatticeFrameElastic :=
  { e := 2, nu := 0, give := fun _ _ => 0 }

/-- An element whose six geometric properties are pairwise different. -/
def sampleElement : LatticeStructuralElement :=
  { giveArea := 1, giveIz := 3, giveIy := 5, giveIk := 7, giveShearAreaZ := 11,
    giveShearAreaY := 13 }

/-- A point of `sampleElement` that has no status yet. -/
def samplePoint : GaussPoint :=
  { giveElement := sampleElement, giveMaterialStatus := none }

/-- Unit strain in slot 3. -/
def unitStrain3 : FloatArrayF 6 := ![0, 0, 0, 1, 0, 0]

/-- A heap holding one status with committed strain/stress different from its temp values. -/
def sampleHeap : Heap :=
  [⟨![1, 2, 3, 4, 5, 6], ![6, 5, 4, 3, 2, 1], fun _ => 9, fun _ => 8⟩]

/-- A point of `sampleElement` whose status is the object at address 0. -/
def samplePointWithStatus : GaussPoint :=
  { giveElement := sampleElement, giveMaterialStatus := some 0 }

/-- The material of the worked example: `e = 30000`, `nu = 0.2`. -/
def exampleMaterial : LatticeFrameElastic :=
  { e := 30000, nu := 1 / 5, give := fun _ _ => 0 }

/-- The element of the worked example: `area = 0.01`, `Iz = Iy = 8.33e-6`,
`Ik = 1.67e-5`, `shearAreaY = shearAreaZ = 0.0083`. -/
def exampleElement : LatticeStructuralElement :=
  { giveArea := 1 / 100, giveIz := 833 / 100000000, giveIy := 833 / 100000000,
    giveIk := 167 / 10000000, giveShearAreaZ := 83 / 10000, giveShearAreaY := 83 / 10000 }

/-- The strain of the worked example: `[1e-4, 0, 0, 0, 0, 0]`. -/
def exampleStrain : FloatArrayF 6 := ![1 / 10000, 0, 0, 0, 0, 0]

/-- A base-class initialisation that accepts every record and changes nothing. -/
def sampleBaseInitializeFrom (_ir : InputRecord) (m : LatticeFrameElastic) :
    Except InputError LatticeFrameElastic :=
  Except.ok m

/-- A record with both required fields. -/
def sampleRecord : InputRecord := [("e", 30000), ("n", 1 / 5)]

/-- A record without the field for `e`. -/
def sampleRecordWithoutE : InputRecord := [("n", 1 / 5)]

/-- A record without the field for `nu`. -/
def sampleRecordWithoutN : InputRecord := [("e", 30000)]

/-! ## Helper lemmas -/

theorem giveStatus_element (m : LatticeFrameElastic) (h : Heap) (gp : GaussPoint) :
    (m.giveStatus h gp).2.2.giveElement = gp.giveElement := by
  unfold LatticeFrameElastic.giveStatus LatticeFrameElastic.CreateStatus
  cases hs : gp.giveMaterialStatus <;> simp [GaussPoint.setMaterialStatus]

theorem give3dFrameStiffnessMatrix_fst (m : LatticeFrameElastic) (rmode : MatResponseMode)
    (h : Heap) (gp : GaussPoint) (t : TimeStep) :
    (m.give3dFrameStiffnessMatrix rmode h gp t).1 =
      diag ![m.e * gp.giveElement.giveArea,
        m.e / (2 * (1 + m.nu)) * gp.giveElement.giveShearAreaZ,
        m.e / (2 * (1 + m.nu)) * gp.giveElement.giveShearAreaY,
        m.e * gp.giveElement.giveIz,
        m.e * gp.giveElement.giveIy,
        m.e / (2 * (1 + m.nu)) * gp.giveElement.giveIk] := by
  simp only [LatticeFrameElastic.give3dFrameStiffnessMatrix, giveStatus_element m h gp]

theorem stiffness_entries (m : LatticeFrameElastic) (rmode : MatResponseMode)
    (h : Heap) (gp : GaussPoint) (t : TimeStep) :
    (m.give3dFrameStiffnessMatrix rmode h gp t).1 0 0 = m.e * gp.giveElement.giveArea ∧
    (m.give3dFrameStiffnessMatrix rmode h gp t).1 1 1
      = m.e / (2 * (1 + m.nu)) * gp.giveElement.giveShearAreaZ ∧
    (m.give3dFrameStiffnessMatrix rmode h gp t).1 2 2
      = m.e / (2 * (1 + m.nu)) * gp.giveElement.giveShearAreaY ∧
    (m.give3dFrameStiffnessMatrix rmode h gp t).1 3 3 = m.e * gp.giveElement.giveIz ∧
    (m.give3dFrameStiffnessMatrix rmode h gp t).1 4 4 = m.e * gp.giveElement.giveIy ∧
    (m.give3dFrameStiffnessMatrix rmode h gp t).1 5 5
      = m.e / (2 * (1 + m.nu)) * gp.giveElement.giveIk := by
  rw [give3dFrameStiffnessMatrix_fst]
  refine ⟨?_, ?_, ?_, ?_, ?_, ?_⟩ <;> simp only [diag, if_true] <;> rfl

theorem stiffness_offdiag (m : LatticeFrameElastic) (rmode : MatResponseMode)
    (h : Heap) (gp : GaussPoint) (t : TimeStep) (i j : Fin 6) (hij : i ≠ j) :
    (m.give3dFrameStiffnessMatrix rmode h gp t).1 i j = 0 := by
  rw [give3dFrameStiffnessMatrix_fst]
  simp [diag, hij]

theorem giveStatus_of_some (m : LatticeFrameElastic) (h : Heap) (gp : GaussPoint) (a : Nat)
    (ha : gp.giveMaterialStatus = some a) : m.giveStatus h gp = (some a, h, gp) := by
  simp [LatticeFrameElastic.giveStatus, ha]

theorem giveStatus_of_none (m : LatticeFrameElastic) (h : Heap) (gp : GaussPoint)
    (ha : gp.giveMaterialStatus = none) :
    m.giveStatus h gp = (some h.length, h ++ [LatticeMaterialStatus.fresh],
      gp.setMaterialStatus h.length) := by
  simp [LatticeFrameElastic.giveStatus, LatticeFrameElastic.CreateStatus, ha]

theorem update_of_get (h : Heap) (a : Nat) (st : LatticeMaterialStatus)
    (f : LatticeMaterialStatus → LatticeMaterialStatus) (hs : h[a]? = some st) :
    h.update a f = some (h.set a (f st)) := by
  simp [Heap.update, hs]

theorem get_set_self (h : Heap) (a : Nat) (st x : LatticeMaterialStatus)
    (hs : h[a]? = some st) : (h.set a x)[a]? = some x := by
  have hlt : a < h.length := by
    rcases List.getElem?_eq_some.1 hs with ⟨hl, _⟩
    exact hl
  simp [List.getElem?_set, hlt]

/-- Closed form of `giveFrameForces3d` on a point whose status exists at address `a`. -/
theorem giveFrameForces3d_of_status (m : LatticeFrameElastic) (s : FloatArrayF 6)
    (h : Heap) (gp : GaussPoint) (t : TimeStep) (a : Nat) (st : LatticeMaterialStatus)
    (ha : gp.giveMaterialStatus = some a) (hs : h[a]? = some st) :
    m.giveFrameForces3d s h gp t =
      some (dot (m.give3dFrameStiffnessMatrix MatResponseMode.ElasticStiffness h gp t).1 s,
        h.set a ((st.initTempStatus.letTempLatticeStrainBe s).letTempLatticeStressBe
          (dot (m.give3dFrameStiffnessMatrix MatResponseMode.ElasticStiffness h gp t).1 s)),
        gp) := by
  have h1 := get_set_self h a st st.initTempStatus hs
  have h2 := get_set_self h a st (st.initTempStatus.letTempLatticeStrainBe s) hs
  simp [LatticeFrameElastic.giveFrameForces3d, LatticeFrameElastic.initTempStatus,
    LatticeFrameElastic.give3dFrameStiffnessMatrix, giveStatus_of_some m _ gp a ha,
    update_of_get h a st _ hs, update_of_get _ a _ _ h1, update_of_get _ a _ _ h2]

/-- Closed form of `giveFrameForces3d` on a point without a status. -/
theorem giveFrameForces3d_of_none (m : LatticeFrameElastic) (s : FloatArrayF 6)
    (h : Heap) (gp : GaussPoint) (t : TimeStep) (ha : gp.giveMaterialStatus = none) :
    m.giveFrameForces3d s h gp t =
      some (dot (m.give3dFrameStiffnessMatrix MatResponseMode.ElasticStiffness h gp t).1 s,
        h ++ [(LatticeMaterialStatus.fresh.initTempStatus.letTempLatticeStrainBe s).letTempLatticeStressBe
          (dot (m.give3dFrameStiffnessMatrix MatResponseMode.ElasticStiffness h gp t).1 s)],
        gp.setMaterialStatus h.length) := by
  have hg := giveStatus_of_none m h gp ha
  have hg1 : (gp.setMaterialStatus h.length).giveMaterialStatus = some h.length := rfl
  have h0 : (h ++ [LatticeMaterialStatus.fresh])[h.length]? = some LatticeMaterialStatus.fresh := by
    simp
  have hf := giveFrameForces3d_of_status m s _ _ t _ _ hg1 h0
  have hK : (m.give3dFrameStiffnessMatrix MatResponseMode.ElasticStiffness
      (h ++ [LatticeMaterialStatus.fresh]) (gp.setMaterialStatus h.length) t).1 =
      (m.give3dFrameStiffnessMatrix MatResponseMode.ElasticStiffness h gp t).1 := by
    rw [give3dFrameStiffnessMatrix_fst, give3dFrameStiffnessMatrix_fst]
    rfl
  rw [hK] at hf
  have hunf : m.giveFrameForces3d s h gp t =
      m.giveFrameForces3d s (h ++ [LatticeMaterialStatus.fresh]) (gp.setMaterialStatus h.length) t := by
    simp [LatticeFrameElastic.giveFrameForces3d, hg, giveStatus_of_some m _ _ _ hg1]
  rw [hunf, hf]
  simp

theorem dot_diag (d x : FloatArrayF 6) (i : Fin 6) : dot (diag d) x i = d i * x i := by
  simp [dot, diag, Finset.sum_ite_eq]

theorem wellFormed_cases (h : Heap) (gp : GaussPoint) (wf : WellFormed h gp) :
    gp.giveMaterialStatus = none ∨
      ∃ a st, gp.giveMaterialStatus = some a ∧ h[a]? = some st := by
  cases hs : gp.giveMaterialStatus with
  | none => exact Or.inl rfl
  | some a =>
    have hl : a < h.length := wf a hs
    exact Or.inr ⟨a, h[a], rfl, List.getElem?_eq_getElem hl⟩

/-- C1: for every material and element geometry the stiffness matrix has the
diagonal `[e*area, g*shearAreaZ, g*shearAreaY, e*Iz, e*Iy, g*Ik]` with
`g = e/(2*(1+nu))`, in this order, and every off-diagonal entry is zero. -/
theorem give3dFrameStiffnessMatrix_diagonal (m : LatticeFrameElastic) (rmode : MatResponseMode)
    (h : Heap) (gp : GaussPoint) (t : TimeStep) :
    let K := (m.give3dFrameStiffnessMatrix rmode h gp t).1
    let g := m.e / (2 * (1 + m.nu))
    K 0 0 = m.e * gp.giveElement.giveArea ∧
    K 1 1 = g * gp.giveElement.giveShearAreaZ ∧
    K 2 2 = g * gp.giveElement.giveShearAreaY ∧
    K 3 3 = m.e * gp.giveElement.giveIz ∧
    K 4 4 = m.e * gp.giveElement.giveIy ∧
    K 5 5 = g * gp.giveElement.giveIk ∧
    ∀ i j : Fin 6, i ≠ j → K i j = 0 := by
  exact ⟨(stiffness_entries m rmode h gp t).1, (stiffness_entries m rmode h gp t).2.1,
    (stiffness_entries m rmode h gp t).2.2.1, (stiffness_entries m rmode h gp t).2.2.2.1,
    (stiffness_entries m rmode h gp t).2.2.2.2.1, (stiffness_entries m rmode h gp t).2.2.2.2.2,
    fun i j hij => stiffness_offdiag m rmode h gp t i j hij⟩

/-- C2: on every point whose status pointer is null or valid, `giveFrameForces3d`
returns a stress vector, and its i-th component is the i-th diagonal entry of
the matrix of `give3dFrameStiffnessMatrix` at the same point times the i-th
strain component; no other strain component enters. -/
theorem giveFrameForces3d_componentwise (m : LatticeFrameElastic) (s : FloatArrayF 6)
    (h : Heap) (gp : GaussPoint) (t : TimeStep) (wf : WellFormed h gp) :
    ∃ stress h1 gp1, m.giveFrameForces3d s h gp t = some (stress, h1, gp1) ∧
      ∀ i : Fin 6, stress i =
        (m.give3dFrameStiffnessMatrix MatResponseMode.ElasticStiffness h gp t).1 i i * s i := by
  have hd : ∀ i : Fin 6,
      dot (m.give3dFrameStiffnessMatrix MatResponseMode.ElasticStiffness h gp t).1 s i =
        (m.give3dFrameStiffnessMatrix MatResponseMode.ElasticStiffness h gp t).1 i i * s i := by
    intro i
    rw [give3dFrameStiffnessMatrix_fst, dot_diag]
    simp [diag]
  rcases wellFormed_cases h gp wf with hn | ⟨a, st, ha, hs⟩
  · exact ⟨_, _, _, giveFrameForces3d_of_none m s h gp t hn, hd⟩
  · exact ⟨_, _, _, giveFrameForces3d_of_status m s h gp t a st ha hs, hd⟩

/-- Instance of C2 at a point that already carries a status. -/
theorem giveFrameForces3d_componentwise_witness :
    WellFormed sampleHeap samplePointWithStatus ∧
    ∃ stress h1 gp1,
      sampleMaterial.giveFrameForces3d unitStrain3 sampleHeap samplePointWithStatus ⟨2⟩
        = some (stress, h1, gp1) ∧
      ∀ i : Fin 6, stress i =
        (sampleMaterial.give3dFrameStiffnessMatrix MatResponseMode.ElasticStiffness sampleHeap
          samplePointWithStatus ⟨2⟩).1 i i * unitStrain3 i :=
  ⟨fun a ha => by
      have h0 : a = 0 := (Option.some.inj ha).symm
      rw [h0]
      exact Nat.zero_lt_one,
    giveFrameForces3d_componentwise sampleMaterial unitStrain3 sampleHeap samplePointWithStatus ⟨2⟩
      (fun a ha => by
        have h0 : a = 0 := (Option.some.inj ha).symm
        rw [h0]
        exact Nat.zero_lt_one)⟩

theorem wellFormed_of_none (h : Heap) (gp : GaussPoint) (hn : gp.giveMaterialStatus = none) :
    WellFormed h gp := by
  intro a ha
  rw [hn] at ha
  cases ha

/-- C3: the generalized strain ordering puts torsion in slot 3 and bending in
slots 4 and 5, so the diagonal should carry `g*Ik`, `e*Iz`, `e*Iy` there.  The
code does not: for `e = 2`, `nu = 0` (`g = 1`) and `Iz = 3`, `Iy = 5`, `Ik = 7`
the entries 3, 4, 5 of the returned diagonal are `6, 10, 7`, where the
ordering requires `g*Ik = 7`, `e*Iz = 6`, `e*Iy = 10`; a unit torsional strain
in slot 3 returns the stress `6 = e*Iz` in slot 3 instead of `g*Ik = 7`. -/
theorem torsion_slot_divergence :
    (sampleMaterial.give3dFrameStiffnessMatrix MatResponseMode.ElasticStiffness [] samplePoint
        ⟨0⟩).1 3 3 = 6 ∧
    (sampleMaterial.give3dFrameStiffnessMatrix MatResponseMode.ElasticStiffness [] samplePoint
        ⟨0⟩).1 4 4 = 10 ∧
    (sampleMaterial.give3dFrameStiffnessMatrix MatResponseMode.ElasticStiffness [] samplePoint
        ⟨0⟩).1 5 5 = 7 ∧
    sampleMaterial.e / (2 * (1 + sampleMaterial.nu)) * sampleElement.giveIk = 7 ∧
    sampleMaterial.e * sampleElement.giveIz = 6 ∧
    sampleMaterial.e * sampleElement.giveIy = 10 ∧
    (sampleMaterial.giveFrameForces3d unitStrain3 [] samplePoint ⟨0⟩).map (fun r => r.1 3)
      = some 6 := by
  obtain ⟨-, -, -, h3, h4, h5⟩ := stiffness_entries sampleMaterial
    MatResponseMode.ElasticStiffness [] samplePoint ⟨0⟩
  refine ⟨?_, ?_, ?_, ?_, ?_, ?_, ?_⟩
  · rw [h3]; norm_num [sampleMaterial, samplePoint, sampleElement]
  · rw [h4]; norm_num [sampleMaterial, samplePoint, sampleElement]
  · rw [h5]; norm_num [sampleMaterial, samplePoint, sampleElement]
  · norm_num [sampleMaterial, sampleElement]
  · norm_num [sampleMaterial, sampleElement]
  · norm_num [sampleMaterial, sampleElement]
  · rw [giveFrameForces3d_of_none _ _ _ _ _ rfl, give3dFrameStiffnessMatrix_fst]
    simp only [Option.map_some', dot_diag]
    norm_num [sampleMaterial, samplePoint, sampleElement, unitStrain3]

/-- C4: on every point whose status pointer is null or valid, after
`giveFrameForces3d s` the status attached to the point holds temp strain `s`
and temp stress equal to the returned stress, while its committed strain and
stress are those the status had before the call (those of the newly created
status when the point had none). -/
theorem giveFrameForces3d_stores_trial (m : LatticeFrameElastic) (s : FloatArrayF 6)
    (h : Heap) (gp : GaussPoint) (t : TimeStep) (wf : WellFormed h gp) :
    ∃ stress h1 gp1 st, m.giveFrameForces3d s h gp t = some (stress, h1, gp1) ∧
      statusOf h1 gp1 = some st ∧
      st.tempLatticeStrain = s ∧
      st.tempLatticeStress = stress ∧
      match statusOf h gp with
      | some st0 =>
        st.latticeStrain = st0.latticeStrain ∧ st.latticeStress = st0.latticeStress ∧
          gp1.giveMaterialStatus = gp.giveMaterialStatus
      | none =>
        st.latticeStrain = LatticeMaterialStatus.fresh.latticeStrain ∧
          st.latticeStress = LatticeMaterialStatus.fresh.latticeStress := by
  rcases wellFormed_cases h gp wf with hn | ⟨a, st0, ha, hs⟩
  · refine ⟨_, _, _,
      (LatticeMaterialStatus.fresh.initTempStatus.letTempLatticeStrainBe s).letTempLatticeStressBe
        (dot (m.give3dFrameStiffnessMatrix MatResponseMode.ElasticStiffness h gp t).1 s),
      giveFrameForces3d_of_none m s h gp t hn, ?_, rfl, rfl, ?_⟩
    · simp [statusOf, GaussPoint.setMaterialStatus]
    · simp [statusOf, hn]
      exact ⟨rfl, rfl⟩
  · refine ⟨_, _, _,
      (st0.initTempStatus.letTempLatticeStrainBe s).letTempLatticeStressBe
        (dot (m.give3dFrameStiffnessMatrix MatResponseMode.ElasticStiffness h gp t).1 s),
      giveFrameForces3d_of_status m s h gp t a st0 ha hs, ?_, rfl, rfl, ?_⟩
    · simp only [statusOf, ha]
      exact get_set_self h a st0 _ hs
    · simp only [statusOf, ha, hs]
      exact ⟨rfl, rfl, trivial⟩

theorem wellFormed_sample : WellFormed sampleHeap samplePointWithStatus := by
  intro a ha
  have h0 : a = 0 := by
    simp [samplePointWithStatus] at ha
    exact ha.symm
  simp [h0, sampleHeap]

/-- Instance of C4 at a point that already carries a status. -/
theorem giveFrameForces3d_stores_trial_witness :
    WellFormed sampleHeap samplePointWithStatus ∧
    ∃ stress h1 gp1 st,
      sampleMaterial.giveFrameForces3d unitStrain3 sampleHeap samplePointWithStatus ⟨0⟩
        = some (stress, h1, gp1) ∧
      statusOf h1 gp1 = some st ∧
      st.tempLatticeStrain = unitStrain3 ∧
      st.tempLatticeStress = stress ∧
      match statusOf sampleHeap samplePointWithStatus with
      | some st0 =>
        st.latticeStrain = st0.latticeStrain ∧ st.latticeStress = st0.latticeStress ∧
          gp1.giveMaterialStatus = samplePointWithStatus.giveMaterialStatus
      | none =>
        st.latticeStrain = LatticeMaterialStatus.fresh.latticeStrain ∧
          st.latticeStress = LatticeMaterialStatus.fresh.latticeStress :=
  ⟨wellFormed_sample,
    giveFrameForces3d_stores_trial sampleMaterial unitStrain3 sampleHeap samplePointWithStatus ⟨0⟩
      wellFormed_sample⟩

/-- C5: `giveStatus` returns the status already attached to the point, leaving
heap and point untouched; otherwise it allocates one status, attaches it and
returns it.  The returned pointer is never null, it is the pointer stored in
the point afterwards, and a second call returns the same pointer and changes
neither the heap nor the point, so no second status is created. -/
theorem giveStatus_idempotent (m : LatticeFrameElastic) (h : Heap) (gp : GaussPoint) :
    (m.giveStatus h gp =
      match gp.giveMaterialStatus with
      | some a => (some a, h, gp)
      | none => (some h.length, h ++ [LatticeMaterialStatus.fresh],
          gp.setMaterialStatus h.length)) ∧
    (m.giveStatus h gp).1 ≠ none ∧
    (m.giveStatus h gp).2.2.giveMaterialStatus = (m.giveStatus h gp).1 ∧
    (m.giveStatus (m.giveStatus h gp).2.1 (m.giveStatus h gp).2.2).1 = (m.giveStatus h gp).1 ∧
    (m.giveStatus (m.giveStatus h gp).2.1 (m.giveStatus h gp).2.2).2 = (m.giveStatus h gp).2 ∧
    statusOf (m.giveStatus h gp).2.1 (m.giveStatus h gp).2.2 =
      match gp.giveMaterialStatus with
      | some _ => statusOf h gp
      | none => some LatticeMaterialStatus.fresh := by
  cases hs : gp.giveMaterialStatus with
  | some a =>
    have e1 := giveStatus_of_some m h gp a hs
    simp [e1, hs]
  | none =>
    have e1 := giveStatus_of_none m h gp hs
    have hg1 : (gp.setMaterialStatus h.length).giveMaterialStatus = some h.length := rfl
    have e2 := giveStatus_of_some m (h ++ [LatticeMaterialStatus.fresh]) _ _ hg1
    simp [e1, e2, hg1, statusOf]

theorem quadratic_form_diag (d x : FloatArrayF 6) :
    ∑ i : Fin 6, ∑ j : Fin 6, x i * diag d i j * x j = ∑ i : Fin 6, d i * (x i * x i) := by
  refine Finset.sum_congr rfl ?_
  intro i _
  simp only [diag, mul_ite, ite_mul, mul_zero, zero_mul, Finset.sum_ite_eq, Finset.mem_univ,
    if_true]
  ring

theorem quadratic_form_pos (d x : FloatArrayF 6) (hd : ∀ i, 0 < d i) (hx : x ≠ 0) :
    0 < ∑ i : Fin 6, d i * (x i * x i) := by
  obtain ⟨k, hk⟩ := Function.ne_iff.1 hx
  refine Finset.sum_pos' ?_ ⟨k, Finset.mem_univ k, ?_⟩
  · intro i _
    exact mul_nonneg (le_of_lt (hd i)) (mul_self_nonneg (x i))
  · exact mul_pos (hd k) (mul_self_pos.2 hk)

theorem vec6_pos (a0 a1 a2 a3 a4 a5 : ℚ) (h0 : 0 < a0) (h1 : 0 < a1) (h2 : 0 < a2)
    (h3 : 0 < a3) (h4 : 0 < a4) (h5 : 0 < a5) (i : Fin 6) :
    0 < (![a0, a1, a2, a3, a4, a5] : FloatArrayF 6) i := by
  fin_cases i
  · exact h0
  · exact h1
  · exact h2
  · exact h3
  · exact h4
  · exact h5

/-- C6: for `e > 0`, `g = e/(2*(1+nu)) > 0` and six positive geometric properties
the stiffness matrix is symmetric and positive-definite. -/
theorem stiffness_symmetric_posdef (m : LatticeFrameElastic) (rmode : MatResponseMode)
    (h : Heap) (gp : GaussPoint) (t : TimeStep)
    (he : 0 < m.e) (hg : 0 < m.e / (2 * (1 + m.nu)))
    (hArea : 0 < gp.giveElement.giveArea) (hIz : 0 < gp.giveElement.giveIz)
    (hIy : 0 < gp.giveElement.giveIy) (hIk : 0 < gp.giveElement.giveIk)
    (hSz : 0 < gp.giveElement.giveShearAreaZ) (hSy : 0 < gp.giveElement.giveShearAreaY) :
    (∀ i j : Fin 6, (m.give3dFrameStiffnessMatrix rmode h gp t).1 i j
        = (m.give3dFrameStiffnessMatrix rmode h gp t).1 j i) ∧
    ∀ x : FloatArrayF 6, x ≠ 0 →
      0 < ∑ i : Fin 6, ∑ j : Fin 6,
        x i * (m.give3dFrameStiffnessMatrix rmode h gp t).1 i j * x j := by
  rw [give3dFrameStiffnessMatrix_fst]
  constructor
  · intro i j
    by_cases hij : i = j
    · rw [hij]
    · have hji : ¬ j = i := fun hh => hij hh.symm
      simp [diag, hij, hji]
  · intro x hx
    rw [quadratic_form_diag]
    exact quadratic_form_pos _ x
      (vec6_pos _ _ _ _ _ _ (mul_pos he hArea) (mul_pos hg hSz) (mul_pos hg hSy)
        (mul_pos he hIz) (mul_pos he hIy) (mul_pos hg hIk)) hx

/-- Instance of C6 at the sample material and point. -/
theorem stiffness_symmetric_posdef_witness :
    (0 < sampleMaterial.e ∧ 0 < sampleMaterial.e / (2 * (1 + sampleMaterial.nu)) ∧
      0 < samplePoint.giveElement.giveArea ∧ 0 < samplePoint.giveElement.giveIz ∧
      0 < samplePoint.giveElement.giveIy ∧ 0 < samplePoint.giveElement.giveIk ∧
      0 < samplePoint.giveElement.giveShearAreaZ ∧
      0 < samplePoint.giveElement.giveShearAreaY) ∧
    ((∀ i j : Fin 6,
        (sampleMaterial.give3dFrameStiffnessMatrix MatResponseMode.TangentStiffness [] samplePoint
          ⟨0⟩).1 i j
        = (sampleMaterial.give3dFrameStiffnessMatrix MatResponseMode.TangentStiffness [] samplePoint
          ⟨0⟩).1 j i) ∧
    ∀ x : FloatArrayF 6, x ≠ 0 →
      0 < ∑ i : Fin 6, ∑ j : Fin 6,
        x i * (sampleMaterial.give3dFrameStiffnessMatrix MatResponseMode.TangentStiffness []
          samplePoint ⟨0⟩).1 i j * x j) :=
  ⟨by norm_num [sampleMaterial, samplePoint, sampleElement],
    stiffness_symmetric_posdef sampleMaterial MatResponseMode.TangentStiffness [] samplePoint ⟨0⟩
      (by norm_num [sampleMaterial]) (by norm_num [sampleMaterial])
      (by norm_num [samplePoint, sampleElement]) (by norm_num [samplePoint, sampleElement])
      (by norm_num [samplePoint, sampleElement]) (by norm_num [samplePoint, sampleElement])
      (by norm_num [samplePoint, sampleElement]) (by norm_num [samplePoint, sampleElement])⟩

theorem shear_modulus_bound (e nu : ℚ) (he : 0 < e) (h1 : -1 < nu) (h2 : nu < 1 / 2) :
    e / 3 < e / (2 * (1 + nu)) ∧ 0 < e / 3 := by
  have hpos : 0 < 2 * (1 + nu) := by linarith
  constructor
  · rw [div_lt_div_iff₀ (by norm_num) hpos]
    nlinarith
  · positivity

/-- C7: for `e > 0`, `-1 < nu < 1/2` and six positive geometric properties, every
diagonal entry of the stiffness matrix is strictly positive, every
off-diagonal entry is zero, the shear entries are `g` times the respective
property with `g = e/(2*(1+nu))`, and `g > e/3 > 0`. -/
theorem stiffness_positive_diagonal (m : LatticeFrameElastic) (rmode : MatResponseMode)
    (h : Heap) (gp : GaussPoint) (t : TimeStep)
    (he : 0 < m.e) (hnu1 : -1 < m.nu) (hnu2 : m.nu < 1 / 2)
    (hArea : 0 < gp.giveElement.giveArea) (hIz : 0 < gp.giveElement.giveIz)
    (hIy : 0 < gp.giveElement.giveIy) (hIk : 0 < gp.giveElement.giveIk)
    (hSz : 0 < gp.giveElement.giveShearAreaZ) (hSy : 0 < gp.giveElement.giveShearAreaY) :
    (∀ i : Fin 6, 0 < (m.give3dFrameStiffnessMatrix rmode h gp t).1 i i) ∧
    (∀ i j : Fin 6, i ≠ j → (m.give3dFrameStiffnessMatrix rmode h gp t).1 i j = 0) ∧
    (m.give3dFrameStiffnessMatrix rmode h gp t).1 1 1
      = m.e / (2 * (1 + m.nu)) * gp.giveElement.giveShearAreaZ ∧
    (m.give3dFrameStiffnessMatrix rmode h gp t).1 2 2
      = m.e / (2 * (1 + m.nu)) * gp.giveElement.giveShearAreaY ∧
    (m.give3dFrameStiffnessMatrix rmode h gp t).1 5 5
      = m.e / (2 * (1 + m.nu)) * gp.giveElement.giveIk ∧
    m.e / 3 < m.e / (2 * (1 + m.nu)) ∧ 0 < m.e / 3 := by
  obtain ⟨hb1, hb2⟩ := shear_modulus_bound m.e m.nu he hnu1 hnu2
  have hg : 0 < m.e / (2 * (1 + m.nu)) := lt_trans hb2 hb1
  obtain ⟨-, e1, e2, -, -, e5⟩ := stiffness_entries m rmode h gp t
  refine ⟨?_, fun i j hij => stiffness_offdiag m rmode h gp t i j hij, e1, e2, e5, hb1, hb2⟩
  intro i
  rw [give3dFrameStiffnessMatrix_fst]
  simp only [diag, if_true]
  exact vec6_pos _ _ _ _ _ _ (mul_pos he hArea) (mul_pos hg hSz) (mul_pos hg hSy)
    (mul_pos he hIz) (mul_pos he hIy) (mul_pos hg hIk) i

/-- Instance of C7 at the sample material and point. -/
theorem stiffness_positive_diagonal_witness :
    (0 < sampleMaterial.e ∧ -1 < sampleMaterial.nu ∧ sampleMaterial.nu < 1 / 2 ∧
      0 < samplePoint.giveElement.giveArea ∧ 0 < samplePoint.giveElement.giveIz ∧
      0 < samplePoint.giveElement.giveIy ∧ 0 < samplePoint.giveElement.giveIk ∧
      0 < samplePoint.giveElement.giveShearAreaZ ∧
      0 < samplePoint.giveElement.giveShearAreaY) ∧
    ((∀ i : Fin 6, 0 < (sampleMaterial.give3dFrameStiffnessMatrix
        MatResponseMode.SecantStiffness [] samplePoint ⟨1⟩).1 i i) ∧
    (∀ i j : Fin 6, i ≠ j → (sampleMaterial.give3dFrameStiffnessMatrix
        MatResponseMode.SecantStiffness [] samplePoint ⟨1⟩).1 i j = 0) ∧
    (sampleMaterial.give3dFrameStiffnessMatrix MatResponseMode.SecantStiffness [] samplePoint
        ⟨1⟩).1 1 1
      = sampleMaterial.e / (2 * (1 + sampleMaterial.nu)) * samplePoint.giveElement.giveShearAreaZ ∧
    (sampleMaterial.give3dFrameStiffnessMatrix MatResponseMode.SecantStiffness [] samplePoint
        ⟨1⟩).1 2 2
      = sampleMaterial.e / (2 * (1 + sampleMaterial.nu)) * samplePoint.giveElement.giveShearAreaY ∧
    (sampleMaterial.give3dFrameStiffnessMatrix MatResponseMode.SecantStiffness [] samplePoint
        ⟨1⟩).1 5 5
      = sampleMaterial.e / (2 * (1 + sampleMaterial.nu)) * samplePoint.giveElement.giveIk ∧
    sampleMaterial.e / 3 < sampleMaterial.e / (2 * (1 + sampleMaterial.nu)) ∧
    0 < sampleMaterial.e / 3) :=
  ⟨by norm_num [sampleMaterial, samplePoint, sampleElement],
    stiffness_positive_diagonal sampleMaterial MatResponseMode.SecantStiffness [] samplePoint ⟨1⟩
      (by norm_num [sampleMaterial]) (by norm_num [sampleMaterial])
      (by norm_num [sampleMaterial])
      (by norm_num [samplePoint, sampleElement]) (by norm_num [samplePoint, sampleElement])
      (by norm_num [samplePoint, sampleElement]) (by norm_num [samplePoint, sampleElement])
      (by norm_num [samplePoint, sampleElement]) (by norm_num [samplePoint, sampleElement])⟩

theorem example_stiffness (rmode : MatResponseMode) (h : Heap) (status : Option Nat)
    (t : TimeStep) :
    (exampleMaterial.give3dFrameStiffnessMatrix rmode h ⟨exampleElement, status⟩ t).1 =
      diag ![300, 415 / 4, 415 / 4, 2499 / 10000, 2499 / 10000, 167 / 800] := by
  rw [give3dFrameStiffnessMatrix_fst]
  norm_num [exampleMaterial, exampleElement]

/-- C8 fails as stated: for the worked example the entries 3, 4 and 5 of the
diagonal are `0.2499`, `0.2499` and `0.20875`, not `249.9`, `249.9` and `208.75`. -/
theorem example_diagonal_counterexample :
    (exampleMaterial.give3dFrameStiffnessMatrix MatResponseMode.ElasticStiffness []
        ⟨exampleElement, none⟩ ⟨0⟩).1 3 3 ≠ 2499 / 10 ∧
    (exampleMaterial.give3dFrameStiffnessMatrix MatResponseMode.ElasticStiffness []
        ⟨exampleElement, none⟩ ⟨0⟩).1 4 4 ≠ 2499 / 10 ∧
    (exampleMaterial.give3dFrameStiffnessMatrix MatResponseMode.ElasticStiffness []
        ⟨exampleElement, none⟩ ⟨0⟩).1 5 5 ≠ 835 / 4 := by
  rw [example_stiffness]
  refine ⟨?_, ?_, ?_⟩
  · have e3 : (diag ![300, 415 / 4, 415 / 4, 2499 / 10000, 2499 / 10000, 167 / 800] :
        FloatMatrixF 6 6) 3 3 = 2499 / 10000 := by
      simp only [diag, if_true]; rfl
    rw [e3]; norm_num
  · have e4 : (diag ![300, 415 / 4, 415 / 4, 2499 / 10000, 2499 / 10000, 167 / 800] :
        FloatMatrixF 6 6) 4 4 = 2499 / 10000 := by
      simp only [diag, if_true]; rfl
    rw [e4]; norm_num
  · have e5 : (diag ![300, 415 / 4, 415 / 4, 2499 / 10000, 2499 / 10000, 167 / 800] :
        FloatMatrixF 6 6) 5 5 = 167 / 800 := by
      simp only [diag, if_true]; rfl
    rw [e5]; norm_num

/-- C8 (amended): for `e = 30000`, `nu = 0.2`, `area = 0.01`, `Iz = Iy = 8.33e-6`,
`Ik = 1.67e-5`, `shearAreaY = shearAreaZ = 0.0083` the shear modulus is
`g = 12500` and the matrix is diagonal with the diagonal
`[300, 103.75, 103.75, 0.2499, 0.2499, 0.20875]`, whatever the response mode,
the time step and the status of the point. -/
theorem example_diagonal (rmode : MatResponseMode) (h : Heap) (status : Option Nat)
    (t : TimeStep) :
    exampleMaterial.e / (2 * (1 + exampleMaterial.nu)) = 12500 ∧
    (fun i : Fin 6 =>
      (exampleMaterial.give3dFrameStiffnessMatrix rmode h ⟨exampleElement, status⟩ t).1 i i)
      = ![300, 415 / 4, 415 / 4, 2499 / 10000, 2499 / 10000, 167 / 800] ∧
    ∀ i j : Fin 6, i ≠ j →
      (exampleMaterial.give3dFrameStiffnessMatrix rmode h ⟨exampleElement, status⟩ t).1 i j
        = 0 := by
  refine ⟨by norm_num [exampleMaterial], ?_, ?_⟩
  · rw [example_stiffness]
    funext i
    simp [diag]
  · intro i j hij
    exact stiffness_offdiag _ rmode h _ t i j hij

/-- C9: for the worked example and the strain `[1e-4, 0, 0, 0, 0, 0]`,
`giveFrameForces3d` returns the stress `[0.03, 0, 0, 0, 0, 0]` on every point
of that element whose status pointer is null or valid. -/
theorem example_forces (h : Heap) (status : Option Nat) (t : TimeStep)
    (wf : WellFormed h ⟨exampleElement, status⟩) :
    ∃ h1 gp1, exampleMaterial.giveFrameForces3d exampleStrain h ⟨exampleElement, status⟩ t
      = some (![3 / 100, 0, 0, 0, 0, 0], h1, gp1) := by
  have hd : dot (exampleMaterial.give3dFrameStiffnessMatrix MatResponseMode.ElasticStiffness h
      ⟨exampleElement, status⟩ t).1 exampleStrain = ![3 / 100, 0, 0, 0, 0, 0] := by
    rw [example_stiffness]
    funext i
    rw [dot_diag]
    fin_cases i <;> norm_num [exampleStrain]
  rcases wellFormed_cases h _ wf with hn | ⟨a, st, ha, hs⟩
  · rw [giveFrameForces3d_of_none _ _ _ _ _ hn, hd]
    exact ⟨_, _, rfl⟩
  · rw [giveFrameForces3d_of_status _ _ _ _ _ a st ha hs, hd]
    exact ⟨_, _, rfl⟩

/-- Instance of C9 at a point without a status and an empty heap. -/
theorem example_forces_witness :
    WellFormed [] ⟨exampleElement, none⟩ ∧
    ∃ h1 gp1, exampleMaterial.giveFrameForces3d exampleStrain [] ⟨exampleElement, none⟩ ⟨0⟩
      = some (![3 / 100, 0, 0, 0, 0, 0], h1, gp1) :=
  ⟨wellFormed_of_none [] _ rfl,
    example_forces [] none ⟨0⟩ (wellFormed_of_none [] _ rfl)⟩

/-- C10: for every point and time step the thermal dilatation vector has the
`tAlpha` property of the material, looked up for that point, in component 0
and zero in components 1 to 5. -/
theorem giveThermalDilatationVector_axial (m : LatticeFrameElastic) (gp : GaussPoint)
    (t : TimeStep) :
    m.giveThermalDilatationVector gp t 0 = m.give MatProperty.tAlpha gp ∧
    m.giveThermalDilatationVector gp t 1 = 0 ∧
    m.giveThermalDilatationVector gp t 2 = 0 ∧
    m.giveThermalDilatationVector gp t 3 = 0 ∧
    m.giveThermalDilatationVector gp t 4 = 0 ∧
    m.giveThermalDilatationVector gp t 5 = 0 := by
  refine ⟨rfl, rfl, rfl, rfl, rfl, rfl⟩

theorem give3dFrameStiffnessMatrix_snd (m : LatticeFrameElastic) (rmode : MatResponseMode)
    (h : Heap) (gp : GaussPoint) (t : TimeStep) :
    (m.give3dFrameStiffnessMatrix rmode h gp t).2 = (m.giveStatus h gp).2 := by
  simp only [LatticeFrameElastic.give3dFrameStiffnessMatrix]

/-- C11: the result of `give3dFrameStiffnessMatrix` (matrix, heap and point) is the
same for any two response modes and any two time steps, and the matrix is a
fixed function of `e`, `nu` and the six geometric properties of the element. -/
theorem give3dFrameStiffnessMatrix_mode_time_independent :
    (∀ (m : LatticeFrameElastic) (m1 m2 : MatResponseMode) (t1 t2 : TimeStep) (h : Heap)
        (gp : GaussPoint),
      m.give3dFrameStiffnessMatrix m1 h gp t1 = m.give3dFrameStiffnessMatrix m2 h gp t2) ∧
    ∃ F : ℚ → ℚ → ℚ → ℚ → ℚ → ℚ → ℚ → ℚ → FloatMatrixF 6 6,
      ∀ (m : LatticeFrameElastic) (rmode : MatResponseMode) (h : Heap) (gp : GaussPoint)
        (t : TimeStep),
        (m.give3dFrameStiffnessMatrix rmode h gp t).1 =
          F m.e m.nu gp.giveElement.giveArea gp.giveElement.giveIz gp.giveElement.giveIy
            gp.giveElement.giveIk gp.giveElement.giveShearAreaZ gp.giveElement.giveShearAreaY := by
  constructor
  · intro m m1 m2 t1 t2 h gp
    rfl
  · refine ⟨fun e nu area iz iy ik sz sy =>
      diag ![e * area, e / (2 * (1 + nu)) * sz, e / (2 * (1 + nu)) * sy, e * iz, e * iy,
        e / (2 * (1 + nu)) * ik], ?_⟩
    intro m rmode h gp t
    exact give3dFrameStiffnessMatrix_fst m rmode h gp t

theorem wellFormed_giveStatus (m : LatticeFrameElastic) (h : Heap) (gp : GaussPoint)
    (wf : WellFormed h gp) : WellFormed (m.giveStatus h gp).2.1 (m.giveStatus h gp).2.2 := by
  cases hs : gp.giveMaterialStatus with
  | some a =>
    rw [giveStatus_of_some m h gp a hs]
    exact wf
  | none =>
    rw [giveStatus_of_none m h gp hs]
    intro a ha
    have h0 : a = h.length := (Option.some.inj ha).symm
    simp [h0]

theorem stiffness_same_element (m : LatticeFrameElastic) (r1 r2 : MatResponseMode)
    (h1 h2 : Heap) (gp1 gp2 : GaussPoint) (t1 t2 : TimeStep)
    (hel : gp1.giveElement = gp2.giveElement) :
    (m.give3dFrameStiffnessMatrix r1 h1 gp1 t1).1 =
      (m.give3dFrameStiffnessMatrix r2 h2 gp2 t2).1 := by
  rw [give3dFrameStiffnessMatrix_fst, give3dFrameStiffnessMatrix_fst, hel]

theorem giveFrameForces3d_result (m : LatticeFrameElastic) (s : FloatArrayF 6)
    (h : Heap) (gp : GaussPoint) (t : TimeStep) (wf : WellFormed h gp) :
    ∃ h1 gp1, m.giveFrameForces3d s h gp t =
        some (dot (m.give3dFrameStiffnessMatrix MatResponseMode.ElasticStiffness h gp t).1 s,
          h1, gp1) ∧
      gp1.giveElement = gp.giveElement := by
  rcases wellFormed_cases h gp wf with hn | ⟨a, st, ha, hs⟩
  · exact ⟨_, _, giveFrameForces3d_of_none m s h gp t hn, rfl⟩
  · exact ⟨_, _, giveFrameForces3d_of_status m s h gp t a st ha hs, rfl⟩

/-- C12: a second call of `give3dFrameStiffnessMatrix` on the point as the first
call left it returns the same matrix, also when the first call created the
status; the same holds when `giveFrameForces3d` has stored trial values in
between; and the matrix is the same for every heap content and status
pointer of a point of the same element. -/
theorem give3dFrameStiffnessMatrix_repeatable (m : LatticeFrameElastic)
    (rmode : MatResponseMode) (s : FloatArrayF 6) (h : Heap) (gp : GaussPoint) (t : TimeStep)
    (wf : WellFormed h gp) :
    (m.give3dFrameStiffnessMatrix rmode (m.give3dFrameStiffnessMatrix rmode h gp t).2.1
        (m.give3dFrameStiffnessMatrix rmode h gp t).2.2 t).1
      = (m.give3dFrameStiffnessMatrix rmode h gp t).1 ∧
    (∃ stress h2 gp2,
      m.giveFrameForces3d s (m.give3dFrameStiffnessMatrix rmode h gp t).2.1
        (m.give3dFrameStiffnessMatrix rmode h gp t).2.2 t = some (stress, h2, gp2) ∧
      (m.give3dFrameStiffnessMatrix rmode h2 gp2 t).1
        = (m.give3dFrameStiffnessMatrix rmode h gp t).1) ∧
    ∀ (h3 : Heap) (status : Option Nat),
      (m.give3dFrameStiffnessMatrix rmode h3 ⟨gp.giveElement, status⟩ t).1
        = (m.give3dFrameStiffnessMatrix rmode h gp t).1 := by
  have hsnd := give3dFrameStiffnessMatrix_snd m rmode h gp t
  have hel : (m.give3dFrameStiffnessMatrix rmode h gp t).2.2.giveElement = gp.giveElement := by
    rw [hsnd]
    exact giveStatus_element m h gp
  have wf1 : WellFormed (m.give3dFrameStiffnessMatrix rmode h gp t).2.1
      (m.give3dFrameStiffnessMatrix rmode h gp t).2.2 := by
    rw [hsnd]
    exact wellFormed_giveStatus m h gp wf
  refine ⟨stiffness_same_element m _ _ _ _ _ _ _ _ hel, ?_, ?_⟩
  · obtain ⟨h2, gp2, hres, hel2⟩ := giveFrameForces3d_result m s _ _ t wf1
    exact ⟨_, h2, gp2, hres, stiffness_same_element m _ _ _ _ _ _ _ _ (hel2.trans hel)⟩
  · intro h3 status
    exact stiffness_same_element m _ _ _ _ _ _ _ _ rfl

/-- Instance of C12 at a point without a status: the first call creates it. -/
theorem give3dFrameStiffnessMatrix_repeatable_witness :
    WellFormed [] samplePoint ∧
    ((sampleMaterial.give3dFrameStiffnessMatrix MatResponseMode.TangentStiffness
        (sampleMaterial.give3dFrameStiffnessMatrix MatResponseMode.TangentStiffness []
          samplePoint ⟨0⟩).2.1
        (sampleMaterial.give3dFrameStiffnessMatrix MatResponseMode.TangentStiffness []
          samplePoint ⟨0⟩).2.2 ⟨0⟩).1
      = (sampleMaterial.give3dFrameStiffnessMatrix MatResponseMode.TangentStiffness []
          samplePoint ⟨0⟩).1 ∧
    (∃ stress h2 gp2,
      sampleMaterial.giveFrameForces3d unitStrain3
        (sampleMaterial.give3dFrameStiffnessMatrix MatResponseMode.TangentStiffness []
          samplePoint ⟨0⟩).2.1
        (sampleMaterial.give3dFrameStiffnessMatrix MatResponseMode.TangentStiffness []
          samplePoint ⟨0⟩).2.2 ⟨0⟩ = some (stress, h2, gp2) ∧
      (sampleMaterial.give3dFrameStiffnessMatrix MatResponseMode.TangentStiffness h2 gp2 ⟨0⟩).1
        = (sampleMaterial.give3dFrameStiffnessMatrix MatResponseMode.TangentStiffness []
            samplePoint ⟨0⟩).1) ∧
    ∀ (h3 : Heap) (status : Option Nat),
      (sampleMaterial.give3dFrameStiffnessMatrix MatResponseMode.TangentStiffness h3
          ⟨samplePoint.giveElement, status⟩ ⟨0⟩).1
        = (sampleMaterial.give3dFrameStiffnessMatrix MatResponseMode.TangentStiffness []
            samplePoint ⟨0⟩).1) :=
  ⟨wellFormed_of_none [] samplePoint rfl,
    give3dFrameStiffnessMatrix_repeatable sampleMaterial MatResponseMode.TangentStiffness
      unitStrain3 [] samplePoint ⟨0⟩ (wellFormed_of_none [] samplePoint rfl)⟩

/-- C13: `hasMaterialModeCapability` answers true exactly for the 3D lattice mode. -/
theorem hasMaterialModeCapability_iff (m : LatticeFrameElastic) (mode : MaterialMode) :
    (m.hasMaterialModeCapability mode = true ↔ mode = MaterialMode._3dLattice) ∧
    (m.hasMaterialModeCapability mode = false ↔ mode ≠ MaterialMode._3dLattice) := by
  simp [LatticeFrameElastic.hasMaterialModeCapability]

/-- C14: `initializeFrom` fails with an input error when the record lacks the
field for `e` or the field for `nu` (the missing-keyword error of that field
when the base initialisation succeeded and the fields before it were present),
so no default is applied; when the base initialisation succeeds and both
fields are present it succeeds with `e` and `nu` set to the record's values. -/
theorem initializeFrom_required_fields
    (base : InputRecord → LatticeFrameElastic → Except InputError LatticeFrameElastic)
    (ift_e ift_n : InputFieldType) (this : LatticeFrameElastic) (ir : InputRecord) :
    (ir.lookup ift_e = none →
      ∃ err, LatticeFrameElastic.initializeFrom base ift_e ift_n this ir = Except.error err) ∧
    (ir.lookup ift_n = none →
      ∃ err, LatticeFrameElastic.initializeFrom base ift_e ift_n this ir = Except.error err) ∧
    (∀ m0, base ir this = Except.ok m0 → ir.lookup ift_e = none →
      LatticeFrameElastic.initializeFrom base ift_e ift_n this ir
        = Except.error (InputError.missingKeyword ift_e)) ∧
    (∀ m0 ve, base ir this = Except.ok m0 → ir.lookup ift_e = some ve →
      ir.lookup ift_n = none →
      LatticeFrameElastic.initializeFrom base ift_e ift_n this ir
        = Except.error (InputError.missingKeyword ift_n)) ∧
    (∀ m0 ve vn, base ir this = Except.ok m0 → ir.lookup ift_e = some ve →
      ir.lookup ift_n = some vn →
      ∃ m1, LatticeFrameElastic.initializeFrom base ift_e ift_n this ir = Except.ok m1 ∧
        m1.e = ve ∧ m1.nu = vn ∧ m1.give = m0.give) := by
  refine ⟨?_, ?_, ?_, ?_, ?_⟩
  · intro he
    cases hb : base ir this with
    | error err => exact ⟨err, by simp [LatticeFrameElastic.initializeFrom, hb]⟩
    | ok m0 =>
      exact ⟨InputError.missingKeyword ift_e, by
        simp [LatticeFrameElastic.initializeFrom, hb, InputRecord.giveField, he]⟩
  · intro hn
    cases hb : base ir this with
    | error err => exact ⟨err, by simp [LatticeFrameElastic.initializeFrom, hb]⟩
    | ok m0 =>
      cases he : ir.lookup ift_e with
      | none =>
        exact ⟨InputError.missingKeyword ift_e, by
          simp [LatticeFrameElastic.initializeFrom, hb, InputRecord.giveField, he]⟩
      | some ve =>
        exact ⟨InputError.missingKeyword ift_n, by
          simp [LatticeFrameElastic.initializeFrom, hb, InputRecord.giveField, he, hn]⟩
  · intro m0 hb he
    simp [LatticeFrameElastic.initializeFrom, hb, InputRecord.giveField, he]
  · intro m0 ve hb he hn
    simp [LatticeFrameElastic.initializeFrom, hb, InputRecord.giveField, he, hn]
  · intro m0 ve vn hb he hn
    exact ⟨{ e := ve, nu := vn, give := m0.give }, by
      simp [LatticeFrameElastic.initializeFrom, hb, InputRecord.giveField, he, hn],
      rfl, rfl, rfl⟩

/-- Instance of C14: a record without `e`, a record without `nu`, and a complete record. -/
theorem initializeFrom_required_fields_witness :
    (∃ err, LatticeFrameElastic.initializeFrom sampleBaseInitializeFrom "e" "n" sampleMaterial
      sampleRecordWithoutE = Except.error err) ∧
    (∃ err, LatticeFrameElastic.initializeFrom sampleBaseInitializeFrom "e" "n" sampleMaterial
      sampleRecordWithoutN = Except.error err) ∧
    (∃ m1, LatticeFrameElastic.initializeFrom sampleBaseInitializeFrom "e" "n" sampleMaterial
      sampleRecord = Except.ok m1 ∧ m1.e = 30000 ∧ m1.nu = 1 / 5 ∧
        m1.give = sampleMaterial.give) :=
  ⟨(initializeFrom_required_fields sampleBaseInitializeFrom "e" "n" sampleMaterial
      sampleRecordWithoutE).1 (by simp [sampleRecordWithoutE, List.lookup]),
    (initializeFrom_required_fields sampleBaseInitializeFrom "e" "n" sampleMaterial
      sampleRecordWithoutN).2.1 (by simp [sampleRecordWithoutN, List.lookup]),
    (initializeFrom_required_fields sampleBaseInitializeFrom "e" "n" sampleMaterial
      sampleRecord).2.2.2.2 sampleMaterial 30000 (1 / 5) rfl
      (by simp [sampleRecord, List.lookup]) (by simp [sampleRecord, List.lookup])⟩

theorem dot_linear (k : FloatMatrixF 6 6) (a : ℚ) (s1 s2 : FloatArrayF 6) (i : Fin 6) :
    dot k (fun j => a * s1 j + s2 j) i = a * dot k s1 i + dot k s2 i := by
  simp only [dot]
  rw [Finset.mul_sum, ← Finset.sum_add_distrib]
  refine Finset.sum_congr rfl ?_
  intro j _
  ring

theorem dot_zero (k : FloatMatrixF 6 6) (i : Fin 6) : dot k (fun _ => 0) i = 0 := by
  simp [dot]

/-- C15: for a fixed material and element, `giveFrameForces3d` is linear in the
strain: on points of the same element whose status pointers are null or
valid, the stress returned for `a*s1 + s2` is `a` times the stress returned
for `s1` plus the stress returned for `s2`, and the zero strain returns the
zero stress. -/
theorem giveFrameForces3d_linear (m : LatticeFrameElastic) (el : LatticeStructuralElement)
    (a : ℚ) (s1 s2 : FloatArrayF 6)
    (h1 h2 h3 h0 : Heap) (p1 p2 p3 p0 : Option Nat) (t1 t2 t3 t0 : TimeStep)
    (wf1 : WellFormed h1 ⟨el, p1⟩) (wf2 : WellFormed h2 ⟨el, p2⟩)
    (wf3 : WellFormed h3 ⟨el, p3⟩) (wf0 : WellFormed h0 ⟨el, p0⟩) :
    ∃ r1 r2 r3 r0,
      m.giveFrameForces3d s1 h1 ⟨el, p1⟩ t1 = some r1 ∧
      m.giveFrameForces3d s2 h2 ⟨el, p2⟩ t2 = some r2 ∧
      m.giveFrameForces3d (fun i => a * s1 i + s2 i) h3 ⟨el, p3⟩ t3 = some r3 ∧
      m.giveFrameForces3d (fun _ => 0) h0 ⟨el, p0⟩ t0 = some r0 ∧
      (∀ i : Fin 6, r3.1 i = a * r1.1 i + r2.1 i) ∧
      ∀ i : Fin 6, r0.1 i = 0 := by
  obtain ⟨g1, q1, e1, -⟩ := giveFrameForces3d_result m s1 h1 ⟨el, p1⟩ t1 wf1
  obtain ⟨g2, q2, e2, -⟩ := giveFrameForces3d_result m s2 h2 ⟨el, p2⟩ t2 wf2
  obtain ⟨g3, q3, e3, -⟩ :=
    giveFrameForces3d_result m (fun i => a * s1 i + s2 i) h3 ⟨el, p3⟩ t3 wf3
  obtain ⟨g0, q0, e0, -⟩ := giveFrameForces3d_result m (fun _ => 0) h0 ⟨el, p0⟩ t0 wf0
  have k1 := stiffness_same_element m MatResponseMode.ElasticStiffness
    MatResponseMode.ElasticStiffness h1 h3 ⟨el, p1⟩ ⟨el, p3⟩ t1 t3 rfl
  have k2 := stiffness_same_element m MatResponseMode.ElasticStiffness
    MatResponseMode.ElasticStiffness h2 h3 ⟨el, p2⟩ ⟨el, p3⟩ t2 t3 rfl
  refine ⟨_, _, _, _, e1, e2, e3, e0, ?_, ?_⟩
  · intro i
    show dot _ (fun i => a * s1 i + s2 i) i = a * dot _ s1 i + dot _ s2 i
    rw [k1, k2]
    exact dot_linear _ a s1 s2 i
  · intro i
    exact dot_zero _ i

/-- Instance of C15 on the sample data: a point with a status and points without. -/
theorem giveFrameForces3d_linear_witness :
    (WellFormed sampleHeap ⟨sampleElement, some 0⟩ ∧ WellFormed [] ⟨sampleElement, none⟩) ∧
    ∃ r1 r2 r3 r0,
      sampleMaterial.giveFrameForces3d unitStrain3 sampleHeap ⟨sampleElement, some 0⟩ ⟨0⟩
        = some r1 ∧
      sampleMaterial.giveFrameForces3d exampleStrain [] ⟨sampleElement, none⟩ ⟨1⟩ = some r2 ∧
      sampleMaterial.giveFrameForces3d (fun i => 3 * unitStrain3 i + exampleStrain i) []
        ⟨sampleElement, none⟩ ⟨2⟩ = some r3 ∧
      sampleMaterial.giveFrameForces3d (fun _ => 0) [] ⟨sampleElement, none⟩ ⟨3⟩ = some r0 ∧
      (∀ i : Fin 6, r3.1 i = 3 * r1.1 i + r2.1 i) ∧
      ∀ i : Fin 6, r0.1 i = 0 :=
  ⟨⟨wellFormed_sample, wellFormed_of_none [] _ rfl⟩,
    giveFrameForces3d_linear sampleMaterial sampleElement 3 unitStrain3 exampleStrain
      sampleHeap [] [] [] (some 0) none none none ⟨0⟩ ⟨1⟩ ⟨2⟩ ⟨3⟩
      wellFormed_sample (wellFormed_of_none [] _ rfl) (wellFormed_of_none [] _ rfl)
      (wellFormed_of_none [] _ rfl)⟩

/-- C16: `give3dFrameStiffnessMatrix` changes the point exactly when it has no
status: then one newly created status is appended to the heap and attached
to the point; when the point already has a status, heap and point (hence the
status object with its temp and committed strain and stress) are returned
unchanged. -/
theorem give3dFrameStiffnessMatrix_status_effect (m : LatticeFrameElastic)
    (rmode : MatResponseMode) (h : Heap) (gp : GaussPoint) (t : TimeStep) :
    match gp.giveMaterialStatus with
    | some _ =>
      (m.give3dFrameStiffnessMatrix rmode h gp t).2 = (h, gp) ∧
        statusOf (m.give3dFrameStiffnessMatrix rmode h gp t).2.1
          (m.give3dFrameStiffnessMatrix rmode h gp t).2.2 = statusOf h gp
    | none =>
      (m.give3dFrameStiffnessMatrix rmode h gp t).2
          = (h ++ [LatticeMaterialStatus.fresh], gp.setMaterialStatus h.length) ∧
        (m.give3dFrameStiffnessMatrix rmode h gp t).2.2.giveMaterialStatus = some h.length ∧
        (m.give3dFrameStiffnessMatrix rmode h gp t).2.2 ≠ gp ∧
        statusOf (m.give3dFrameStiffnessMatrix rmode h gp t).2.1
          (m.give3dFrameStiffnessMatrix rmode h gp t).2.2 = some LatticeMaterialStatus.fresh := by
  rw [give3dFrameStiffnessMatrix_snd]
  cases hs : gp.giveMaterialStatus with
  | some a =>
    rw [giveStatus_of_some m h gp a hs]
    exact ⟨rfl, rfl⟩
  | none =>
    rw [giveStatus_of_none m h gp hs]
    refine ⟨rfl, rfl, ?_, ?_⟩
    · intro hgp
      have hc : (gp.setMaterialStatus h.length).giveMaterialStatus = gp.giveMaterialStatus :=
        congrArg GaussPoint.giveMaterialStatus hgp
      rw [hs] at hc
      cases hc
    · simp [statusOf, GaussPoint.setMaterialStatus]

end oofem
